import Mathlib

/-!
Shallow embedding of the SkillScapes Streamlit dashboard: the home page
in app.py together with the six analysis pages under pages/.

The pure fragments of the Python source are translated into executable
Lean definitions: date derivation from the sidebar widget, query
parameter construction, the GET request each page issues, the cached
lookup helpers, and the dataframe reshaping (pct_change, pivot).  HTTP
responses are modelled as explicit outcome values.  The per-page
request lists embed the execution in which every issued request
succeeds, so that follow-up requests guarded by a successful response
are included; the claims quantify over sidebar filter state, not over
backend behaviour.
-/

/-- Calendar date, as held by a datetime.date value returned by the
Streamlit date widget. -/
structure PyDate where
  year : Nat
  month : Nat
  day : Nat
deriving DecidableEq

/-- Zero padding to two digits, as in strftime. -/
def pad2 (n : Nat) : String :=
  if n < 10 then "0" ++ toString n else toString n

/-- Zero padding to four digits, as in strftime %Y. -/
def pad4 (n : Nat) : String :=
  if n < 10 then "000" ++ toString n
  else if n < 100 then "00" ++ toString n
  else if n < 1000 then "0" ++ toString n
  else toString n

/-- strftime with format %Y-%m-%d. -/
def fmtDate (d : PyDate) : String :=
  pad4 d.year ++ "-" ++ pad2 d.month ++ "-" ++ pad2 d.day

/-- Value returned by st.sidebar.date_input: a bare date when the
widget is configured with a single default date, and a tuple of one or
two dates when it is configured with a (start, end) default. -/
inductive DateWidgetValue where
  | single (d : PyDate)
  | oneDate (d : PyDate)
  | twoDates (a b : PyDate)
deriving DecidableEq

/-- The message Python raises for len applied to a datetime.date. -/
def pyDateLenError : String := "TypeError: object of type datetime.date has no len()"

/-- Embedding of the derivation block each page runs after its date
widget, written as
  if len(date_range) == 2: start, end := formatted dates else: None, None.
A tuple of two dates passes the len test and both endpoints are
formatted with strftime %Y-%m-%d; a tuple of one date fails the test
and both variables are set to None; a bare date has no len, so the
len call itself raises TypeError. -/
def deriveDates : DateWidgetValue → Except String (Option String × Option String)
  | .single _ => .error pyDateLenError
  | .oneDate _ => .ok (none, none)
  | .twoDates a b => .ok (some (fmtDate a), some (fmtDate b))

/-- The seven Streamlit pages of the application. -/
inductive Page where
  | home
  | jobs
  | occupations
  | regions
  | skills
  | heatmaps
  | jobTypes
deriving DecidableEq

/-- How the date widget of a page is configured: absent on the home
page, a (start, end) tuple default on five analysis pages, and a
single date default on the Job Types page. -/
inductive DateWidgetConfig where
  | noWidget
  | rangeDefault
  | singleDefault
deriving DecidableEq

/-- Date widget configuration of each page, from the value argument of
each st.sidebar.date_input call; app.py has no date widget at all. -/
def dateWidget : Page → DateWidgetConfig
  | .home => .noWidget
  | .jobs => .rangeDefault
  | .occupations => .rangeDefault
  | .regions => .rangeDefault
  | .skills => .rangeDefault
  | .heatmaps => .rangeDefault
  | .jobTypes => .singleDefault

/-- Whether the date widget of a page can return a given value: a
range-configured widget returns a tuple of one or two dates, a
single-configured widget returns a bare date. -/
def canReturn (p : Page) (v : DateWidgetValue) : Bool :=
  match dateWidget p, v with
  | .noWidget, _ => false
  | .singleDefault, .single _ => true
  | .singleDefault, _ => false
  | .rangeDefault, .single _ => false
  | .rangeDefault, _ => true

/-- Whether a page shows a date input in its body or sidebar. -/
def hasDateInput (p : Page) : Bool :=
  match dateWidget p with
  | .noWidget => false
  | _ => true

/-- One HTTP request as issued through the requests library: the
method, the URL path after the API base, the query parameters in
insertion order, and the optional timeout argument. -/
structure Request where
  method : String
  path : String
  params : List (String × String)
  timeout : Option Nat := none
deriving DecidableEq

/-- Embedding of the conditional
  if start_date and end_date: params gets start_date and end_date.
Both variables are set together by deriveDates, and formatted dates
are nonempty strings, so the Python truthiness test is both being
non-None. -/
def dateParams (sd ed : Option String) : List (String × String) :=
  match sd, ed with
  | some s, some e => [("start_date", s), ("end_date", e)]
  | _, _ => []

/-- The two values of the region level radio widgets. -/
inductive RegionLevel where
  | nuts2
  | regionalUnit
deriving DecidableEq

/-- The query parameter value sent for a region level choice. -/
def levelParam : RegionLevel → String
  | .nuts2 => "nuts2"
  | .regionalUnit => "regional_unit"

/-- String serialization of a Python bool in a query parameter. -/
def pyBoolStr (b : Bool) : String :=
  if b then "True" else "False"

/-- The paths of a list of requests. -/
def requestPaths (rs : List Request) : List String :=
  rs.map (fun r => r.path)

/-- The cached occupations lookup request: GET /api/occupations/demand
with top_n 200, as issued by the get_occupations helpers of the
Occupations, Skills, Heatmaps and Job Types pages. -/
def occLookupRequest : Request :=
  { method := "GET", path := "/api/occupations/demand", params := [("top_n", "200")] }

/-- The cached regions lookup request: GET /api/regions/jobs with the
chosen region level and top_n 100, as issued by the get_regions
helpers of the Regions and Skills pages. -/
def regLookupRequest (level : RegionLevel) : Request :=
  { method := "GET", path := "/api/regions/jobs",
    params := [("region_level", levelParam level), ("top_n", "100")] }

/-- Sidebar and body widget state of the Jobs page: the derived date
strings and the top occupations slider. -/
structure JobsState where
  start_date : Option String
  end_date : Option String
  top_occ : Nat
deriving DecidableEq

/-- The GET requests of the Jobs page body: total count, occupation
demand, daily time series and monthly trends. -/
def jobsRequests (s : JobsState) : List Request :=
  [ { method := "GET", path := "/api/jobs/count",
      params := dateParams s.start_date s.end_date },
    { method := "GET", path := "/api/occupations/demand",
      params := [("top_n", toString s.top_occ)] ++ dateParams s.start_date s.end_date },
    { method := "GET", path := "/api/jobs/timeseries",
      params := dateParams s.start_date s.end_date },
    { method := "GET", path := "/api/trends/monthly",
      params := dateParams s.start_date s.end_date } ]

/-- Widget state of the Occupations page: selected occupation, derived
dates, the two region level radios and the two sliders. -/
structure OccupationsState where
  occupation : String
  start_date : Option String
  end_date : Option String
  overview_level : RegionLevel
  detail_level : RegionLevel
  top_regions : Nat
  top_skills : Nat
deriving DecidableEq

/-- The data GET requests of the Occupations page body, tab by tab:
regional overview, daily time series, the nested monthly trend request
whose path interpolates the selected occupation, regional detail, and
detailed skills. -/
def occupationsDataRequests (s : OccupationsState) : List Request :=
  [ { method := "GET", path := "/api/occupations/regions",
      params := [("esco_label", s.occupation), ("region_level", levelParam s.overview_level),
                 ("top_n", "15")] ++ dateParams s.start_date s.end_date },
    { method := "GET", path := "/api/occupations/timeseries",
      params := [("esco_label", s.occupation)] ++ dateParams s.start_date s.end_date },
    { method := "GET", path := "/api/trends/monthly/occupations/" ++ s.occupation,
      params := [("esco_label", s.occupation)] ++ dateParams s.start_date s.end_date },
    { method := "GET", path := "/api/occupations/regions",
      params := [("esco_label", s.occupation), ("region_level", levelParam s.detail_level),
                 ("top_n", toString s.top_regions)] ++ dateParams s.start_date s.end_date },
    { method := "GET", path := "/api/skills/by-occupation/detailed",
      params := [("esco_label", s.occupation), ("top_n", toString s.top_skills)]
                ++ dateParams s.start_date s.end_date } ]

/-- All GET requests of the Occupations page: the cached lookup first,
then the data requests. -/
def occupationsRequests (s : OccupationsState) : List Request :=
  occLookupRequest :: occupationsDataRequests s

/-- Widget state of the Regions page: the sidebar region level radio,
the selected region, derived dates and the three sliders. -/
structure RegionsState where
  region_level : RegionLevel
  region : String
  start_date : Option String
  end_date : Option String
  compare_regions : Nat
  top_occ : Nat
  top_skills : Nat
deriving DecidableEq

/-- The data GET requests of the Regions page body, tab by tab:
regional comparison, job type categories of the selected region,
occupations of the selected region, its time series, and its skills.
Three of the paths interpolate the selected region. -/
def regionsDataRequests (s : RegionsState) : List Request :=
  [ { method := "GET", path := "/api/regions/jobs",
      params := [("region_level", levelParam s.region_level),
                 ("top_n", toString s.compare_regions)] ++ dateParams s.start_date s.end_date },
    { method := "GET", path := "/api/regions/" ++ s.region ++ "/jobtypes/categories",
      params := [("region_level", levelParam s.region_level)]
                ++ dateParams s.start_date s.end_date },
    { method := "GET", path := "/api/regions/" ++ s.region ++ "/occupations",
      params := [("region_level", levelParam s.region_level),
                 ("top_n", toString s.top_occ)] ++ dateParams s.start_date s.end_date },
    { method := "GET", path := "/api/regions/" ++ s.region ++ "/timeseries",
      params := [("region_level", levelParam s.region_level)]
                ++ dateParams s.start_date s.end_date },
    { method := "GET", path := "/api/skills/by-region",
      params := [("region", s.region), ("region_level", levelParam s.region_level),
                 ("top_n", toString s.top_skills)] ++ dateParams s.start_date s.end_date } ]

/-- All GET requests of the Regions page: the cached lookup first,
then the data requests. -/
def regionsRequests (s : RegionsState) : List Request :=
  regLookupRequest s.region_level :: regionsDataRequests s

/-- Widget state of the Skills page: derived dates, the overall top
slider, the occupation selection and slider of the second tab, and the
region level, region selection and slider of the third tab. -/
structure SkillsState where
  start_date : Option String
  end_date : Option String
  top_skills_overall : Nat
  occupation : String
  top_occ_skills : Nat
  region_level : RegionLevel
  region : String
  top_region_skills : Nat
deriving DecidableEq

/-- Top skills request of the Skills page, first tab. -/
def skillsTopRequest (s : SkillsState) : Request :=
  { method := "GET", path := "/api/skills/top",
    params := [("top_n", toString s.top_skills_overall)]
              ++ dateParams s.start_date s.end_date }

/-- Detailed skills by occupation request of the Skills page, second tab. -/
def skillsByOccRequest (s : SkillsState) : Request :=
  { method := "GET", path := "/api/skills/by-occupation/detailed",
    params := [("esco_label", s.occupation), ("top_n", toString s.top_occ_skills)]
              ++ dateParams s.start_date s.end_date }

/-- Skills by region request of the Skills page, third tab. -/
def skillsByRegionRequest (s : SkillsState) : Request :=
  { method := "GET", path := "/api/skills/by-region",
    params := [("region", s.region), ("region_level", levelParam s.region_level),
               ("top_n", toString s.top_region_skills)]
              ++ dateParams s.start_date s.end_date }

/-- The data GET requests of the Skills page body. -/
def skillsDataRequests (s : SkillsState) : List Request :=
  [skillsTopRequest s, skillsByOccRequest s, skillsByRegionRequest s]

/-- All GET requests of the Skills page in script order, with the two
cached lookups interleaved where their tabs run. -/
def skillsRequests (s : SkillsState) : List Request :=
  [skillsTopRequest s, occLookupRequest, skillsByOccRequest s,
   regLookupRequest s.region_level, skillsByRegionRequest s]

/-- Widget state of the Heatmaps page: derived dates, the first tab
region level and two sliders, and the second tab occupation, region
level, two sliders and the normalize checkbox. -/
structure HeatmapsState where
  start_date : Option String
  end_date : Option String
  occ_region_level : RegionLevel
  top_occ : Nat
  top_reg : Nat
  occupation : String
  skills_region_level : RegionLevel
  top_skills : Nat
  top_regions : Nat
  normalize : Bool
deriving DecidableEq

/-- Occupations by regions heatmap request, first tab. -/
def heatmapOccRegRequest (s : HeatmapsState) : Request :=
  { method := "GET", path := "/api/heatmap/occupations-regions",
    params := [("region_level", levelParam s.occ_region_level),
               ("top_n_occupations", toString s.top_occ),
               ("top_n_regions", toString s.top_reg)]
              ++ dateParams s.start_date s.end_date }

/-- Query parameters of the skills by regions heatmap request, as
built on the second tab of the Heatmaps page. -/
def skillsRegionsHeatmapParams (normalize : Bool) (occupation : String)
    (level : RegionLevel) (topSkills topRegions : Nat)
    (sd ed : Option String) : List (String × String) :=
  [("esco_label", occupation), ("region_level", levelParam level),
   ("top_n_skills", toString topSkills), ("top_n_regions", toString topRegions),
   ("normalize", pyBoolStr normalize)] ++ dateParams sd ed

/-- Skills by regions heatmap request, second tab. -/
def heatmapSkillsRequest (s : HeatmapsState) : Request :=
  { method := "GET", path := "/api/heatmap/skills-regions-occupation",
    params := skillsRegionsHeatmapParams s.normalize s.occupation
                s.skills_region_level s.top_skills s.top_regions
                s.start_date s.end_date }

/-- The data GET requests of the Heatmaps page body. -/
def heatmapsDataRequests (s : HeatmapsState) : List Request :=
  [heatmapOccRegRequest s, heatmapSkillsRequest s]

/-- All GET requests of the Heatmaps page in script order. -/
def heatmapsRequests (s : HeatmapsState) : List Request :=
  [heatmapOccRegRequest s, occLookupRequest, heatmapSkillsRequest s]

/-- The three values of the category filter selectbox on the Job Types
page. -/
inductive CategoryFilter where
  | allTypes
  | fulltimeParttime
  | temporaryPermanent
deriving DecidableEq

/-- The category query parameter derived from the filter: None for All
Types, which is then omitted from the parameters. -/
def categoryParam : CategoryFilter → Option String
  | .allTypes => none
  | .fulltimeParttime => some "fulltime"
  | .temporaryPermanent => some "temporary"

/-- Widget state of the Job Types page: derived dates, the category
filter and the selected occupation. -/
structure JobTypesState where
  start_date : Option String
  end_date : Option String
  category : CategoryFilter
  occupation : String
deriving DecidableEq

/-- Job type distribution request, first tab: dates first, then the
category parameter when the filter is not All Types. -/
def jobtypesDistributionRequest (s : JobTypesState) : Request :=
  { method := "GET", path := "/api/jobtypes/distribution",
    params := dateParams s.start_date s.end_date
              ++ (match categoryParam s.category with
                  | some c => [("category", c)]
                  | none => []) }

/-- Job type categories request, second tab. -/
def jobtypesCategoriesRequest (s : JobTypesState) : Request :=
  { method := "GET", path := "/api/jobtypes/categories",
    params := dateParams s.start_date s.end_date }

/-- Job type categories by occupation request, third tab. -/
def jobtypesByOccRequest (s : JobTypesState) : Request :=
  { method := "GET", path := "/api/occupations/jobtypes/categories",
    params := [("esco_label", s.occupation)] ++ dateParams s.start_date s.end_date }

/-- The data GET requests of the Job Types page body. -/
def jobTypesDataRequests (s : JobTypesState) : List Request :=
  [jobtypesDistributionRequest s, jobtypesCategoriesRequest s, jobtypesByOccRequest s]

/-- All GET requests of the Job Types page in script order. -/
def jobTypesRequests (s : JobTypesState) : List Request :=
  [jobtypesDistributionRequest s, jobtypesCategoriesRequest s,
   occLookupRequest, jobtypesByOccRequest s]

/-- Outcome of the GET request to /health: either the call raises (a
connection error or the 5 second timeout) or it completes with a
status code. -/
inductive HealthOutcome where
  | raises
  | completes (status : Nat)
deriving DecidableEq

/-- Embedding of check_api_connection in app.py: True exactly when the
request completes with status 200, False on any other status, and
False when the request raises, the bare except clause catching every
exception. -/
def check_api_connection : HealthOutcome → Bool
  | .raises => false
  | .completes s => s == 200

/-- The health check request, with its 5 second timeout. -/
def healthRequest : Request :=
  { method := "GET", path := "/health", params := [], timeout := some 5 }

/-- The four quick stats requests of the home page. -/
def quickStatsRequests : List Request :=
  [ { method := "GET", path := "/api/jobs/count", params := [] },
    { method := "GET", path := "/api/occupations/demand", params := [("top_n", "100")] },
    { method := "GET", path := "/api/regions/jobs",
      params := [("region_level", "nuts2"), ("top_n", "100")] },
    { method := "GET", path := "/api/skills/top", params := [("top_n", "100")] } ]

/-- All GET requests of the home page: check_api_connection is called
twice, once for the sidebar status and once to gate the quick stats,
each time issuing the health request; the quick stats requests follow
only when the second call returns True. -/
def homeRequests (_sidebarHealth quickHealth : HealthOutcome) : List Request :=
  healthRequest :: healthRequest ::
    (if check_api_connection quickHealth then quickStatsRequests else [])

/-- The two lookup lists the cached helpers hold. -/
inductive CachedList where
  | occupationsList
  | regionsList
deriving DecidableEq

/-- One st.cache_data declaration in the source: the page it lives on,
which lookup list it populates and its ttl argument in seconds.  The
list appCaches below enumerates every st.cache_data declaration in the
repository; no other cross-rerun state (st.session_state or other
caches) appears anywhere in the source. -/
structure CacheDecl where
  page : Page
  kind : CachedList
  ttl : Nat
deriving DecidableEq

/-- Every cached helper declaration in the source: get_occupations on
the Occupations, Skills, Heatmaps and Job Types pages, and get_regions
on the Regions and Skills pages, each declared with ttl 3600. -/
def appCaches : List CacheDecl :=
  [ ⟨.occupations, .occupationsList, 3600⟩,
    ⟨.regions, .regionsList, 3600⟩,
    ⟨.skills, .occupationsList, 3600⟩,
    ⟨.skills, .regionsList, 3600⟩,
    ⟨.heatmaps, .occupationsList, 3600⟩,
    ⟨.jobTypes, .occupationsList, 3600⟩ ]

/-- The request a cached helper issues to populate its list; only the
regions helper takes the region level argument. -/
def cacheRequest : CachedList → RegionLevel → Request
  | .occupationsList, _ => occLookupRequest
  | .regionsList, level => regLookupRequest level

/-- Embedding of pandas pct_change on a numeric column: the first row
is NaN, modelled as none, and every later row i holds the value at i
divided by the value at i minus 1, minus 1, pandas computing the
column divided by its shift by one. -/
def pctChange (xs : List ℚ) : List (Option ℚ) :=
  match xs with
  | [] => []
  | _ :: tail =>
    none :: List.zipWith (fun prev cur => some (cur / prev - 1)) xs tail

/-- The mom_change column of the Monthly Trends tab of the Jobs page:
pct_change of total_jobs times 100. -/
def momChange (xs : List ℚ) : List (Option ℚ) :=
  (pctChange xs).map (Option.map (fun r => r * 100))

/-- The rows the growth rate chart is drawn over: the dataframe sliced
from index 1, plotting month against mom_change. -/
def growthChartRows (months : List String) (totals : List ℚ) :
    List (String × Option ℚ) :=
  (months.zip (momChange totals)).drop 1

/-- Position of a label in a pandas index, as used when a DataFrame
built from a matrix with index and columns label lists is addressed by
label. -/
def labelIndex : List String → String → Option Nat
  | [], _ => none
  | a :: rest, s => if a = s then some 0 else (labelIndex rest s).map (· + 1)

/-- Cell of the pivot DataFrame the Heatmaps page builds with
pd.DataFrame(matrix, index := occupations, columns := regions),
addressed by row and column label: the matrix entry at the positions
of the two labels. -/
def pivotCell (matrix : List (List ℚ)) (index cols : List String)
    (row col : String) : Option ℚ :=
  match labelIndex index row, labelIndex cols col with
  | some i, some j => some ((matrix.getD i []).getD j 0)
  | _, _ => none

/-- Cell (i, j) of the heatmap px.imshow renders from the pivot
DataFrame, with y running over the row index and x over the columns:
the pivot value at the i-th row label and j-th column label. -/
def heatmapCell (matrix : List (List ℚ)) (index cols : List String)
    (i j : Nat) : Option ℚ :=
  pivotCell matrix index cols (index.getD i "") (cols.getD j "")

/-- Outcome of a cached lookup request: the call raises, or it
completes with a status code and a body from which the list of labels
is extracted; none as body means extraction itself raises (malformed
JSON or a missing key), which the bare except clause also catches. -/
inductive LookupOutcome where
  | raises
  | completes (status : Nat) (body : Option (List String))
deriving DecidableEq

/-- Embedding of the get_occupations helper shared by four pages: on
status 200 it returns the esco_label list (the empty list when
extraction raises, the except clause catching it); when the request
raises it returns the empty list; on any other status the function
falls off the if without a return, so Python returns None. -/
def get_occupations : LookupOutcome → Option (List String)
  | .raises => some []
  | .completes status body =>
    if status = 200 then
      match body with
      | some ls => some ls
      | none => some []
    else none

/-- Embedding of the get_regions helper of the Regions and Skills
pages: identical handling, the level argument affecting only the
request sent. -/
def get_regions (_level : RegionLevel) (o : LookupOutcome) : Option (List String) :=
  match o with
  | .raises => some []
  | .completes status body =>
    if status = 200 then
      match body with
      | some ls => some ls
      | none => some []
    else none

/-- Python truthiness of a lookup result: None and the empty list are
falsy, a nonempty list is truthy. -/
def pyTruthy : Option (List String) → Bool
  | some (_ :: _) => true
  | _ => false

/-- The widget a page shows for the occupation or region choice. -/
inductive SelectorWidget where
  | selectbox (options : List String)
  | textInput (default : String)
deriving DecidableEq

/-- The occupation selector: a selectbox over the lookup result when
it is truthy, otherwise a free text input defaulting to Software
Developer. -/
def occupationSelector (r : Option (List String)) : SelectorWidget :=
  if pyTruthy r then .selectbox (r.getD []) else .textInput "Software Developer"

/-- The region selector: a selectbox over the lookup result when it is
truthy, otherwise a free text input defaulting to Attiki. -/
def regionSelector (r : Option (List String)) : SelectorWidget :=
  if pyTruthy r then .selectbox (r.getD []) else .textInput "Attiki"

/-- Response of /api/heatmap/skills-regions-occupation as the second
tab of the Heatmaps page reads it; a key absent from the JSON object
is modelled as none. -/
structure SkillsHeatmapResponse where
  skills : List String
  regions : List String
  matrix : Option (List (List ℚ))
  normalized_matrix : Option (List (List ℚ))
deriving DecidableEq

/-- Embedding of
  matrix_data := data.get normalized_matrix with default
    (data.get matrix with default empty):
the normalized matrix whenever its key is present, else the plain
matrix, else the empty list. -/
def matrixData (r : SkillsHeatmapResponse) : List (List ℚ) :=
  r.normalized_matrix.getD (r.matrix.getD [])

/-- What the skills by regions heatmap chart is built from: the matrix
passed to px.imshow, the color axis label, the text_auto format and
the title. -/
structure SkillsHeatmapChart where
  zmatrix : List (List ℚ)
  colorLabel : String
  textAuto : String
  title : String
deriving DecidableEq

/-- The chart of the Skills by Regions tab: the matrix selection never
consults the checkbox, while the color label, the text format and the
title suffix do. -/
def skillsHeatmapChart (normalize : Bool) (occupation : String)
    (r : SkillsHeatmapResponse) : SkillsHeatmapChart :=
  { zmatrix := matrixData r
    colorLabel := if normalize then "Percentage" else "Frequency"
    textAuto := if normalize then ".1f" else "True"
    title := ("Skills × Regions: " ++ occupation)
             ++ (if normalize then " (Normalized %)" else "") }

lemma zipWithPrev_getD (x : ℚ) (t : List ℚ) (k : Nat) (h : k + 1 < (x :: t).length) :
    (List.zipWith (fun prev cur => some (cur / prev - 1)) (x :: t) t).getD k none
      = some ((x :: t).getD (k + 1) 0 / (x :: t).getD k 0 - 1) := by
  induction t generalizing x k with
  | nil => simp at h
  | cons y t2 ih =>
    cases k with
    | zero => simp
    | succ k =>
      have h2 : k + 1 < (y :: t2).length := by
        simpa [Nat.succ_lt_succ_iff] using h
      simpa using ih y k h2

lemma map_optionMap_getD (L : List (Option ℚ)) (g : ℚ → ℚ) (i : Nat) :
    (L.map (Option.map g)).getD i none = Option.map g (L.getD i none) := by
  induction L generalizing i with
  | nil => simp
  | cons a t ih =>
    cases i with
    | zero => simp
    | succ i => simpa using ih i

lemma momChange_length (xs : List ℚ) : (momChange xs).length = xs.length := by
  cases xs with
  | nil => simp [momChange, pctChange]
  | cons x t => simp [momChange, pctChange]

/-- C3: On the Monthly Trends tab of the Jobs page, when the monthly
dataframe has more than one row, the mom_change value of every row i
at least 1 equals the pct_change formula
(total_jobs at i minus total_jobs at i-1) over total_jobs at i-1,
times 100; the growth chart is drawn over the dataframe sliced from
index 1, so its row j is row j+1 of the full frame, its length is one
less than the frame length, and the first row, whose delta is
undefined, is excluded. -/
theorem jobs_monthly_growth (months : List String) (totals : List ℚ) (i : Nat)
    (hlen : 1 < totals.length) (hi : 1 ≤ i) (hil : i < totals.length)
    (hprev : totals.getD (i - 1) 0 ≠ 0) :
    (momChange totals).getD i none
      = some ((totals.getD i 0 - totals.getD (i - 1) 0) / totals.getD (i - 1) 0 * 100)
    ∧ (∀ j : Nat, (growthChartRows months totals).getD j ("", none)
        = (months.zip (momChange totals)).getD (j + 1) ("", none))
    ∧ (growthChartRows months totals).length
        = min months.length totals.length - 1
    ∧ (momChange totals).getD 0 none = none := by
  obtain ⟨k, rfl⟩ : ∃ k, i = k + 1 := ⟨i - 1, (Nat.succ_pred_eq_of_pos hi).symm⟩
  refine ⟨?_, ?_, ?_, ?_⟩
  · cases totals with
    | nil => simp at hlen
    | cons x t =>
      have hk : k + 1 < (x :: t).length := hil
      have hstep :
          (momChange (x :: t)).getD (k + 1) none
            = ((List.zipWith (fun prev cur => some (cur / prev - 1)) (x :: t) t).map
                (Option.map (fun r => r * 100))).getD k none := rfl
      have hprev2 : (x :: t).getD k 0 ≠ 0 := by simpa using hprev
      have harith : (x :: t).getD (k + 1) 0 / (x :: t).getD k 0 - 1
          = ((x :: t).getD (k + 1) 0 - (x :: t).getD k 0) / (x :: t).getD k 0 :=
        div_sub_one hprev2
      rw [hstep, map_optionMap_getD, zipWithPrev_getD x t k hk, harith]
      simp
  · intro j
    show ((months.zip (momChange totals)).drop 1).getD j ("", none) = _
    rw [List.getD_eq_getElem?_getD, List.getD_eq_getElem?_getD,
      List.getElem?_drop, Nat.add_comm 1 j]
  · simp only [growthChartRows, List.length_drop, List.length_zip, momChange_length]
  · cases totals with
    | nil => simp at hlen
    | cons x t => simp [momChange, pctChange]

/-- C3 witness: the theorem applied to a concrete two-month frame. -/
theorem jobs_monthly_growth_witness :
    (momChange [(2 : ℚ), 3]).getD 1 none
      = some ((((3 : ℚ) - 2) / 2) * 100) :=
  (jobs_monthly_growth ["2025-01", "2025-02"] [2, 3] 1
    (by norm_num) (by norm_num) (by norm_num) (by norm_num)).1

lemma labelIndex_getD (l : List String) (i : Nat) (hnd : l.Nodup) (hi : i < l.length) :
    labelIndex l (l.getD i "") = some i := by
  induction l generalizing i with
  | nil => simp at hi
  | cons a t ih =>
    cases i with
    | zero => simp [labelIndex]
    | succ i =>
      have hat : a ∉ t := (List.nodup_cons.mp hnd).1
      have hit : i < t.length := by simpa [Nat.succ_lt_succ_iff] using hi
      have hmem : t.getD i "" ∈ t := by
        rw [List.getD_eq_getElem t "" hit]
        exact List.getElem_mem hit
      have hne : ¬ a = t.getD i "" := fun h => hat (h ▸ hmem)
      have hrec := ih i (List.nodup_cons.mp hnd).2 hit
      have hcons : labelIndex (a :: t) (t.getD i "")
          = if a = t.getD i "" then some 0
            else (labelIndex t (t.getD i "")).map (· + 1) := rfl
      have hstep : (a :: t).getD (i + 1) "" = t.getD i "" := rfl
      rw [hstep, hcons, if_neg hne, hrec]
      rfl

/-- C6: On the Occupations by Regions tab of the Heatmaps page, the
pivot table is built from the response matrix with the occupations
list as row index and the regions list as column index, so cell (i, j)
of the rendered heatmap is matrix entry i j, the job count of
occupation i in region j. -/
theorem heatmap_pivot_cell (matrix : List (List ℚ)) (occupations regions : List String)
    (i j : Nat) (hoc : occupations.Nodup) (hrg : regions.Nodup)
    (hi : i < occupations.length) (hj : j < regions.length) :
    heatmapCell matrix occupations regions i j
      = some ((matrix.getD i []).getD j 0) := by
  unfold heatmapCell pivotCell
  rw [labelIndex_getD occupations i hoc hi, labelIndex_getD regions j hrg hj]

/-- C6 witness: the theorem applied to a concrete 2 by 2 matrix. -/
theorem heatmap_pivot_cell_witness :
    heatmapCell [[1, 2], [3, 4]] ["Bakers", "Cooks"] ["Attiki", "Kriti"] 1 0
      = some 3 :=
  heatmap_pivot_cell [[1, 2], [3, 4]] ["Bakers", "Cooks"] ["Attiki", "Kriti"] 1 0
    (by decide) (by decide) (by decide) (by decide)

/-- C1: claimed that on every page, deriving start_date and end_date
from any value the date widget can return completes without raising.
On the Job Types page the widget is configured with a single default
date, so it returns a bare date, and the len call in
  if len(date_range) == 2
raises TypeError on it; this holds already at the default value
2025-05-01, so the derivation on that page never completes.  On the
tuple-returning widgets of the other five pages the derivation does
complete as the claim states. -/
theorem jobtypes_date_len_raises :
    dateWidget Page.jobTypes = DateWidgetConfig.singleDefault
    ∧ canReturn Page.jobTypes (DateWidgetValue.single ⟨2025, 5, 1⟩) = true
    ∧ deriveDates (DateWidgetValue.single ⟨2025, 5, 1⟩) = Except.error pyDateLenError
    ∧ (∀ a b : PyDate, deriveDates (DateWidgetValue.twoDates a b)
        = Except.ok (some (fmtDate a), some (fmtDate b)))
    ∧ (∀ d : PyDate, deriveDates (DateWidgetValue.oneDate d) = Except.ok (none, none)) :=
  ⟨rfl, rfl, rfl, fun _ _ => rfl, fun _ => rfl⟩

/-- C4: every cross-rerun cache declaration in the source is one of
the two lookup lists, each declared with ttl 3600; the occupations
list is fetched from /api/occupations/demand with top_n 200 and the
regions list from /api/regions/jobs with top_n 100; and each of the
pages using a lookup owns its own declaration. -/
theorem cache_state_shape :
    (appCaches.all (fun c => c.ttl == 3600)) = true
    ∧ (appCaches.all (fun c =>
        c.kind == CachedList.occupationsList || c.kind == CachedList.regionsList)) = true
    ∧ (∀ level : RegionLevel,
        (cacheRequest CachedList.occupationsList level).method = "GET"
        ∧ (cacheRequest CachedList.occupationsList level).path = "/api/occupations/demand"
        ∧ (cacheRequest CachedList.occupationsList level).params = [("top_n", "200")]
        ∧ (cacheRequest CachedList.regionsList level).method = "GET"
        ∧ (cacheRequest CachedList.regionsList level).path = "/api/regions/jobs"
        ∧ (cacheRequest CachedList.regionsList level).params
            = [("region_level", levelParam level), ("top_n", "100")])
    ∧ (CacheDecl.mk Page.occupations CachedList.occupationsList 3600 ∈ appCaches
       ∧ CacheDecl.mk Page.skills CachedList.occupationsList 3600 ∈ appCaches
       ∧ CacheDecl.mk Page.heatmaps CachedList.occupationsList 3600 ∈ appCaches
       ∧ CacheDecl.mk Page.jobTypes CachedList.occupationsList 3600 ∈ appCaches
       ∧ CacheDecl.mk Page.regions CachedList.regionsList 3600 ∈ appCaches
       ∧ CacheDecl.mk Page.skills CachedList.regionsList 3600 ∈ appCaches) := by
  refine ⟨by decide, by decide, ?_, by decide⟩
  intro level
  cases level <;>
    exact ⟨rfl, rfl, rfl, rfl, rfl, rfl⟩

/-- C8: the cached lookup helpers never propagate an exception: when
the request raises they return the empty list, on status 200 they
return the extracted label list, and on any other status they fall off
the if without a return, so they return None; whenever the result is
falsy the page falls back to a free text input defaulting to Software
Developer for occupations and Attiki for regions, and a truthy result
yields a selectbox over the returned labels. -/
theorem lookup_helpers_error_handling :
    ∀ level : RegionLevel,
      (get_occupations LookupOutcome.raises = some []
        ∧ get_regions level LookupOutcome.raises = some [])
      ∧ (∀ (s : Nat) (b : Option (List String)), s ≠ 200 →
          get_occupations (LookupOutcome.completes s b) = none
          ∧ get_regions level (LookupOutcome.completes s b) = none)
      ∧ (∀ ls : List String,
          get_occupations (LookupOutcome.completes 200 (some ls)) = some ls
          ∧ get_regions level (LookupOutcome.completes 200 (some ls)) = some ls)
      ∧ (∀ r : Option (List String), pyTruthy r = false →
          occupationSelector r = SelectorWidget.textInput "Software Developer"
          ∧ regionSelector r = SelectorWidget.textInput "Attiki")
      ∧ (∀ r : Option (List String), pyTruthy r = true →
          occupationSelector r = SelectorWidget.selectbox (r.getD [])
          ∧ regionSelector r = SelectorWidget.selectbox (r.getD [])) := by
  intro level
  refine ⟨⟨rfl, rfl⟩, ?_, fun ls => ⟨rfl, rfl⟩, ?_, ?_⟩
  · intro s b hs
    constructor <;> simp [get_occupations, get_regions, hs]
  · intro r hr
    constructor <;> simp [occupationSelector, regionSelector, hr]
  · intro r hr
    constructor <;> simp [occupationSelector, regionSelector, hr]

/-- C8 witness: the theorem applied at concrete outcomes, covering a
raising request, a 404, a well-formed 200, and both fallback cases. -/
theorem lookup_helpers_error_handling_witness :
    get_occupations (LookupOutcome.completes 404 (some ["Bakers"])) = none
    ∧ get_regions RegionLevel.nuts2 (LookupOutcome.completes 404 (some ["Attiki"])) = none
    ∧ get_occupations (LookupOutcome.completes 200 (some ["Bakers"])) = some ["Bakers"]
    ∧ occupationSelector none = SelectorWidget.textInput "Software Developer"
    ∧ regionSelector (some []) = SelectorWidget.textInput "Attiki"
    ∧ occupationSelector (some ["Bakers"]) = SelectorWidget.selectbox ["Bakers"] :=
  ⟨((lookup_helpers_error_handling RegionLevel.nuts2).2.1 404 (some ["Bakers"])
      (by decide)).1,
   ((lookup_helpers_error_handling RegionLevel.nuts2).2.1 404 (some ["Attiki"])
      (by decide)).2,
   ((lookup_helpers_error_handling RegionLevel.nuts2).2.2.1 ["Bakers"]).1,
   ((lookup_helpers_error_handling RegionLevel.nuts2).2.2.2.1 none (by decide)).1,
   ((lookup_helpers_error_handling RegionLevel.nuts2).2.2.2.1 (some []) (by decide)).2,
   ((lookup_helpers_error_handling RegionLevel.nuts2).2.2.2.2 (some ["Bakers"])
      (by decide)).1⟩

/-- C9: the matrix the Skills by Regions heatmap renders is the
normalized_matrix key whenever present and the matrix key otherwise,
independent of the normalize checkbox; the checkbox changes only the
normalize query parameter of the request and the color label, text
format and title suffix of the chart. -/
theorem skills_heatmap_matrix_selection :
    ∀ (n : Bool) (occ : String) (r : SkillsHeatmapResponse) (level : RegionLevel)
      (topS topR : Nat) (sd ed : Option String),
      (skillsHeatmapChart n occ r).zmatrix = matrixData r
      ∧ (skillsHeatmapChart true occ r).zmatrix = (skillsHeatmapChart false occ r).zmatrix
      ∧ (∀ m, r.normalized_matrix = some m → matrixData r = m)
      ∧ (r.normalized_matrix = none → matrixData r = r.matrix.getD [])
      ∧ ((skillsRegionsHeatmapParams n occ level topS topR sd ed).filter
            (fun p => !(p.1 == "normalize"))
          = (skillsRegionsHeatmapParams (!n) occ level topS topR sd ed).filter
            (fun p => !(p.1 == "normalize")))
      ∧ ((skillsRegionsHeatmapParams n occ level topS topR sd ed).lookup "normalize"
          = some (pyBoolStr n)) := by
  intro n occ r level topS topR sd ed
  refine ⟨rfl, rfl, ?_, ?_, ?_, ?_⟩
  · intro m hm
    simp [matrixData, hm]
  · intro hm
    simp [matrixData, hm]
  · simp [skillsRegionsHeatmapParams, List.filter_append]
  · simp [skillsRegionsHeatmapParams, List.lookup]

/-- C9 witness: the theorem applied at a concrete response carrying
both matrices, and with the checkbox on. -/
theorem skills_heatmap_matrix_selection_witness :
    matrixData
      { skills := ["python"], regions := ["Attiki"],
        matrix := some [[7]], normalized_matrix := some [[50]] }
      = [[(50 : ℚ)]] :=
  ((skills_heatmap_matrix_selection true "Software Developer"
      { skills := ["python"], regions := ["Attiki"],
        matrix := some [[7]], normalized_matrix := some [[50]] }
      RegionLevel.nuts2 20 10 none none).2.2.1 [[50]] rfl)

/-- C7: every HTTP request any page issues, the cached lookups and the
home page included, uses the GET method; no page performs a
state-changing method. -/
theorem all_requests_get :
    ∀ (s1 : JobsState) (s2 : OccupationsState) (s3 : RegionsState)
      (s4 : SkillsState) (s5 : HeatmapsState) (s6 : JobTypesState)
      (o1 o2 : HealthOutcome),
      ((jobsRequests s1 ++ occupationsRequests s2 ++ regionsRequests s3
          ++ skillsRequests s4 ++ heatmapsRequests s5 ++ jobTypesRequests s6
          ++ homeRequests o1 o2).all (fun r => r.method == "GET")) = true := by
  intro s1 s2 s3 s4 s5 s6 o1 o2
  cases h : check_api_connection o2 <;>
    simp [jobsRequests, occupationsRequests, occupationsDataRequests,
      regionsRequests, regionsDataRequests, regLookupRequest, occLookupRequest,
      skillsRequests, skillsTopRequest, skillsByOccRequest, skillsByRegionRequest,
      heatmapsRequests, heatmapOccRegRequest, heatmapSkillsRequest,
      jobTypesRequests, jobtypesDistributionRequest, jobtypesCategoriesRequest,
      jobtypesByOccRequest, homeRequests, healthRequest, quickStatsRequests, h]

/-- C10: check_api_connection is total and returns True exactly when
the health request completes with status 200, False on any other
status or on a raised exception (a timeout included); and the four
quick stats requests are issued exactly when the gating call returns
True, the home page otherwise issuing only the two health requests. -/
theorem home_health_gate :
    ∀ o o1 o2 : HealthOutcome,
      (check_api_connection o = true ↔ o = HealthOutcome.completes 200)
      ∧ ((∀ r ∈ quickStatsRequests, r ∈ homeRequests o1 o2)
          ↔ check_api_connection o2 = true)
      ∧ (check_api_connection o2 = false
          → homeRequests o1 o2 = [healthRequest, healthRequest]) := by
  intro o o1 o2
  refine ⟨?_, ?_, ?_⟩
  · cases o with
    | raises => simp [check_api_connection]
    | completes s => simp [check_api_connection]
  · constructor
    · intro hall
      by_contra hfalse
      have hb : check_api_connection o2 = false := by
        cases hcb : check_api_connection o2
        · rfl
        · exact absurd hcb hfalse
      have h1 := hall (Request.mk "GET" "/api/jobs/count" [] none) (by decide)
      simp [homeRequests, hb, healthRequest] at h1
    · intro htrue r hr
      have hexp : homeRequests o1 o2 = healthRequest :: healthRequest :: quickStatsRequests := by
        simp [homeRequests, htrue]
      rw [hexp]
      exact List.mem_cons_of_mem _ (List.mem_cons_of_mem _ hr)
  · intro h
    simp [homeRequests, h]

/-- C10 witness: the theorem applied at concrete outcomes, one
connected and one timed out. -/
theorem home_health_gate_witness :
    (check_api_connection (HealthOutcome.completes 200) = true
      ↔ HealthOutcome.completes 200 = HealthOutcome.completes 200)
    ∧ (homeRequests HealthOutcome.raises HealthOutcome.raises
        = [healthRequest, healthRequest]) :=
  ⟨(home_health_gate (HealthOutcome.completes 200) HealthOutcome.raises
      HealthOutcome.raises).1,
   (home_health_gate (HealthOutcome.completes 200) HealthOutcome.raises
      HealthOutcome.raises).2.2 (by decide)⟩

/-- C2 counterexample: the set of endpoint paths the Regions page
requests is not fixed across sidebar filter states; two states
differing only in the selected region request different paths, the
selected region being interpolated into three of the URL paths. -/
theorem regions_paths_not_fixed :
    requestPaths (regionsRequests
      { region_level := RegionLevel.nuts2, region := "Attiki",
        start_date := none, end_date := none,
        compare_regions := 15, top_occ := 20, top_skills := 20 })
    ≠ requestPaths (regionsRequests
      { region_level := RegionLevel.nuts2, region := "Kriti",
        start_date := none, end_date := none,
        compare_regions := 15, top_occ := 20, top_skills := 20 })
    ∧ "/api/regions/Attiki/timeseries" ∈ requestPaths (regionsRequests
      { region_level := RegionLevel.nuts2, region := "Attiki",
        start_date := none, end_date := none,
        compare_regions := 15, top_occ := 20, top_skills := 20 })
    ∧ "/api/regions/Attiki/timeseries" ∉ requestPaths (regionsRequests
      { region_level := RegionLevel.nuts2, region := "Kriti",
        start_date := none, end_date := none,
        compare_regions := 15, top_occ := 20, top_skills := 20 }) := by
  refine ⟨?_, by decide, by decide⟩
  decide

/-- C2 amended: for every page the requested endpoint path templates
are fixed: the Jobs, Skills, Heatmaps and Job Types pages request a
literally constant path list for every filter state, the home page
path list depends only on the health check result, and on the
Occupations and Regions pages two filter states agreeing on the
selected occupation, or region, request exactly the same paths, every
other filter value affecting only query parameters. -/
theorem endpoint_paths_by_selection :
    (∀ s : JobsState, requestPaths (jobsRequests s)
        = ["/api/jobs/count", "/api/occupations/demand",
           "/api/jobs/timeseries", "/api/trends/monthly"])
    ∧ (∀ s1 s2 : OccupationsState, s1.occupation = s2.occupation →
        requestPaths (occupationsRequests s1) = requestPaths (occupationsRequests s2))
    ∧ (∀ s1 s2 : RegionsState, s1.region = s2.region →
        requestPaths (regionsRequests s1) = requestPaths (regionsRequests s2))
    ∧ (∀ s : SkillsState, requestPaths (skillsRequests s)
        = ["/api/skills/top", "/api/occupations/demand",
           "/api/skills/by-occupation/detailed", "/api/regions/jobs",
           "/api/skills/by-region"])
    ∧ (∀ s : HeatmapsState, requestPaths (heatmapsRequests s)
        = ["/api/heatmap/occupations-regions", "/api/occupations/demand",
           "/api/heatmap/skills-regions-occupation"])
    ∧ (∀ s : JobTypesState, requestPaths (jobTypesRequests s)
        = ["/api/jobtypes/distribution", "/api/jobtypes/categories",
           "/api/occupations/demand", "/api/occupations/jobtypes/categories"])
    ∧ (∀ o1 o2 o3 o4 : HealthOutcome,
        check_api_connection o2 = check_api_connection o4 →
        requestPaths (homeRequests o1 o2) = requestPaths (homeRequests o3 o4)) := by
  refine ⟨?_, ?_, ?_, ?_, ?_, ?_, ?_⟩
  · intro s
    rfl
  · intro s1 s2 h
    simp [requestPaths, occupationsRequests, occupationsDataRequests,
      occLookupRequest, h]
  · intro s1 s2 h
    simp [requestPaths, regionsRequests, regionsDataRequests, regLookupRequest, h]
  · intro s
    rfl
  · intro s
    rfl
  · intro s
    rfl
  · intro o1 o2 o3 o4 h
    simp [requestPaths, homeRequests, h]

/-- C2 amended witness: the theorem applied at two concrete
Occupations page states sharing the selection but differing in dates
and sliders. -/
theorem endpoint_paths_by_selection_witness :
    requestPaths (occupationsRequests
      { occupation := "Software Developer", start_date := none, end_date := none,
        overview_level := RegionLevel.nuts2, detail_level := RegionLevel.nuts2,
        top_regions := 15, top_skills := 20 })
    = requestPaths (occupationsRequests
      { occupation := "Software Developer", start_date := some "2025-05-01",
        end_date := some "2025-06-30", overview_level := RegionLevel.regionalUnit,
        detail_level := RegionLevel.regionalUnit, top_regions := 30, top_skills := 50 }) :=
  endpoint_paths_by_selection.2.1
    { occupation := "Software Developer", start_date := none, end_date := none,
      overview_level := RegionLevel.nuts2, detail_level := RegionLevel.nuts2,
      top_regions := 15, top_skills := 20 }
    { occupation := "Software Developer", start_date := some "2025-05-01",
      end_date := some "2025-06-30", overview_level := RegionLevel.regionalUnit,
      detail_level := RegionLevel.regionalUnit, top_regions := 30, top_skills := 50 }
    rfl

/-- C5 counterexample: not every page presents a date input; the home
page sidebar shows only the connection status, and even with a full
range selected a page issues GET requests without date parameters, the
cached occupations lookup of the Occupations page carrying only its
top_n parameter. -/
theorem home_page_no_date_input :
    hasDateInput Page.home = false
    ∧ ((occupationsRequests
        { occupation := "Software Developer", start_date := some "2025-05-01",
          end_date := some "2025-06-30", overview_level := RegionLevel.nuts2,
          detail_level := RegionLevel.nuts2, top_regions := 15,
          top_skills := 20 }).any
        (fun r => (r.params.lookup "start_date").isNone)) = true := by
  constructor
  · rfl
  · decide

/-- C5 amended: each of the six analysis pages presents a date input,
and whenever the derived start and end dates are present every data
GET request of the page body carries them as query parameters; the
home page presents no date input and none of its requests carries a
date parameter; the cached lookup requests carry none either, as the
C5 counterexample records. -/
theorem date_filters_in_requests :
    (∀ p ∈ [Page.jobs, Page.occupations, Page.regions, Page.skills,
        Page.heatmaps, Page.jobTypes], hasDateInput p = true)
    ∧ hasDateInput Page.home = false
    ∧ (∀ (s : JobsState) (sd ed : String), s.start_date = some sd →
        s.end_date = some ed → ∀ r ∈ jobsRequests s,
        ("start_date", sd) ∈ r.params ∧ ("end_date", ed) ∈ r.params)
    ∧ (∀ (s : OccupationsState) (sd ed : String), s.start_date = some sd →
        s.end_date = some ed → ∀ r ∈ occupationsDataRequests s,
        ("start_date", sd) ∈ r.params ∧ ("end_date", ed) ∈ r.params)
    ∧ (∀ (s : RegionsState) (sd ed : String), s.start_date = some sd →
        s.end_date = some ed → ∀ r ∈ regionsDataRequests s,
        ("start_date", sd) ∈ r.params ∧ ("end_date", ed) ∈ r.params)
    ∧ (∀ (s : SkillsState) (sd ed : String), s.start_date = some sd →
        s.end_date = some ed → ∀ r ∈ skillsDataRequests s,
        ("start_date", sd) ∈ r.params ∧ ("end_date", ed) ∈ r.params)
    ∧ (∀ (s : HeatmapsState) (sd ed : String), s.start_date = some sd →
        s.end_date = some ed → ∀ r ∈ heatmapsDataRequests s,
        ("start_date", sd) ∈ r.params ∧ ("end_date", ed) ∈ r.params)
    ∧ (∀ (s : JobTypesState) (sd ed : String), s.start_date = some sd →
        s.end_date = some ed → ∀ r ∈ jobTypesDataRequests s,
        ("start_date", sd) ∈ r.params ∧ ("end_date", ed) ∈ r.params)
    ∧ (∀ o1 o2 : HealthOutcome,
        ((homeRequests o1 o2).all
          (fun r => (r.params.lookup "start_date").isNone)) = true) := by
  refine ⟨by decide, rfl, ?_, ?_, ?_, ?_, ?_, ?_, ?_⟩
  · intro s sd ed h1 h2 r hr
    simp only [jobsRequests, List.mem_cons, List.mem_singleton] at hr
    rcases hr with rfl | rfl | rfl | rfl | hr
    all_goals first
      | (constructor <;> simp [dateParams, h1, h2])
      | simp at hr
  · intro s sd ed h1 h2 r hr
    simp only [occupationsDataRequests, List.mem_cons, List.mem_singleton] at hr
    rcases hr with rfl | rfl | rfl | rfl | rfl | hr
    all_goals first
      | (constructor <;> simp [dateParams, h1, h2])
      | simp at hr
  · intro s sd ed h1 h2 r hr
    simp only [regionsDataRequests, List.mem_cons, List.mem_singleton] at hr
    rcases hr with rfl | rfl | rfl | rfl | rfl | hr
    all_goals first
      | (constructor <;> simp [dateParams, h1, h2])
      | simp at hr
  · intro s sd ed h1 h2 r hr
    simp only [skillsDataRequests, List.mem_cons, List.mem_singleton] at hr
    rcases hr with rfl | rfl | rfl | hr
    all_goals first
      | (constructor <;>
          simp [skillsTopRequest, skillsByOccRequest, skillsByRegionRequest,
            dateParams, h1, h2])
      | simp at hr
  · intro s sd ed h1 h2 r hr
    simp only [heatmapsDataRequests, List.mem_cons, List.mem_singleton] at hr
    rcases hr with rfl | rfl | hr
    all_goals first
      | (constructor <;>
          simp [heatmapOccRegRequest, heatmapSkillsRequest,
            skillsRegionsHeatmapParams, dateParams, h1, h2])
      | simp at hr
  · intro s sd ed h1 h2 r hr
    simp only [jobTypesDataRequests, List.mem_cons, List.mem_singleton] at hr
    rcases hr with rfl | rfl | rfl | hr
    all_goals first
      | (constructor <;>
          simp [jobtypesDistributionRequest, jobtypesCategoriesRequest,
            jobtypesByOccRequest, dateParams, h1, h2])
      | simp at hr
  · intro o1 o2
    cases h : check_api_connection o2
    · have hexp : homeRequests o1 o2 = [healthRequest, healthRequest] := by
        simp [homeRequests, h]
      rw [hexp]
      decide
    · have hexp : homeRequests o1 o2
          = healthRequest :: healthRequest :: quickStatsRequests := by
        simp [homeRequests, h]
      rw [hexp]
      decide

/-- C5 amended witness: the theorem applied to a concrete Jobs page
state with a full range selected, at its first request. -/
theorem date_filters_in_requests_witness :
    ("start_date", "2025-05-01")
        ∈ (Request.mk "GET" "/api/jobs/count"
            (dateParams (some "2025-05-01") (some "2025-06-30")) none).params
    ∧ ("end_date", "2025-06-30")
        ∈ (Request.mk "GET" "/api/jobs/count"
            (dateParams (some "2025-05-01") (some "2025-06-30")) none).params :=
  date_filters_in_requests.2.2.1
    { start_date := some "2025-05-01", end_date := some "2025-06-30", top_occ := 20 }
    "2025-05-01" "2025-06-30" rfl rfl
    (Request.mk "GET" "/api/jobs/count"
      (dateParams (some "2025-05-01") (some "2025-06-30")) none)
    (by decide)
